import Mathlib

/-!
# Spending-limits contract: shallow embedding and verification

This file embeds the spending-limits Soroban contract
(`src/contracts/spending-limits/src/lib.rs`) in Lean 4 and proves or
refutes the frozen claims about it.

Modelling conventions:
* `Address` is `Nat`.
* `i128` values are `Int`; `checked_add` on `i128` is `checked_add_i128`,
  which returns `none` exactly when the mathematical sum leaves the
  `i128` range.
* `u64` / `u32` counters (batch id, totals, ledger clock) are `Nat`:
  they only ever grow by small increments per call, so machine overflow
  is unreachable for them and is not modelled.
* Contract storage is a `ContractState` record; map-valued keys are
  functions with pointwise update.  A missing period counter reads as
  `0`, mirroring `unwrap_or(0)` in the source.
* A Soroban panic aborts the call and the host discards all writes.
  Each operation is embedded as a function threading the state
  sequentially and returning `State × Except AbortReason α`; a
  `panic_with_error!` becomes `.error (.tagged e)` and a bare
  `panic!` / `.expect(msg)` becomes `.error (.genericPanic msg)`.
  Because the state is threaded sequentially, proving that an erroring
  run returns the input state shows the panic fires before any write,
  which is stronger than (and implies) the host-rollback guarantee.

`types.rs` and `validation.rs` of the crate are not in the source tree;
the declarations they provide (`validate_limit_request`,
`MAX_BATCH_SIZE`, `ErrorCode`) are modelled from the spec and marked as
such in their doc comments.
-/

/-- Largest `i128` value, `2^127 - 1`. -/
def I128_MAX : Int := 170141183460469231731687303715884105727

/-- Smallest `i128` value, `-2^127`. -/
def I128_MIN : Int := -170141183460469231731687303715884105728

/-- `x` is representable as an `i128`. -/
def isI128 (x : Int) : Prop := I128_MIN ≤ x ∧ x ≤ I128_MAX

instance (x : Int) : Decidable (isI128 x) := by
  unfold isI128; infer_instance

/-- Rust `i128::checked_add`: `some (a + b)` when the sum is
representable, `none` on overflow. -/
def checked_add_i128 (a b : Int) : Option Int :=
  let s := a + b
  if isI128 s then some s else none

/-- `SpendingLimitError` from `lib.rs` (`repr(u32)`, codes 1..8). -/
inductive SpendingLimitError
  | NotInitialized
  | Unauthorized
  | InvalidBatch
  | EmptyBatch
  | BatchTooLarge
  | DailyLimitExceeded
  | MonthlyLimitExceeded
  | InvalidAmount
deriving Repr, DecidableEq

/-- The `u32` discriminant of each error, as declared in `lib.rs`. -/
def SpendingLimitError.code : SpendingLimitError → Nat
  | .NotInitialized => 1
  | .Unauthorized => 2
  | .InvalidBatch => 3
  | .EmptyBatch => 4
  | .BatchTooLarge => 5
  | .DailyLimitExceeded => 6
  | .MonthlyLimitExceeded => 7
  | .InvalidAmount => 8

/-- How a call aborts: `tagged e` models `panic_with_error!(env, e)`
(a contract error code the caller can observe), `genericPanic msg`
models a bare `panic!` or `.expect(msg)` (an untagged trap). -/
inductive AbortReason
  | tagged (e : SpendingLimitError)
  | genericPanic (msg : String)
deriving Repr, DecidableEq

/-- Modelled from the spec: per-item validation error codes returned by
`validate_limit_request` (`validation.rs` is not in the source tree).
The spec names a non-positive monthly limit ("invalid-amount code") and
an ill-formed category label as the two failure classes. -/
inductive ErrorCode
  | InvalidLimitAmount
  | InvalidCategory
deriving Repr, DecidableEq

/-- `SpendingLimitRequest` from `types.rs`, reconstructed from its uses
in `lib.rs` and the spec data model: `user`, `monthly_limit`,
`category`. -/
structure SpendingLimitRequest where
  user : Nat
  monthly_limit : Int
  category : String
deriving Repr, DecidableEq

/-- `SpendingLimit` from `types.rs`, reconstructed from its uses in
`lib.rs` and the spec data model. -/
structure SpendingLimit where
  user : Nat
  monthly_limit : Int
  current_spending : Int
  category : String
  updated_at : Nat
  is_active : Bool
deriving Repr, DecidableEq

/-- `LimitUpdateResult` from `types.rs`: per-request outcome inside a
batch result. -/
inductive LimitUpdateResult
  | Success (limit : SpendingLimit)
  | Failure (user : Nat) (code : ErrorCode)
deriving Repr, DecidableEq

/-- `BatchLimitMetrics` from `types.rs`, fields as populated in
`batch_update_spending_limits`. -/
structure BatchLimitMetrics where
  total_requests : Nat
  successful_updates : Nat
  failed_updates : Nat
  total_limits_value : Int
  avg_limit_amount : Int
  processed_at : Nat
deriving Repr, DecidableEq

/-- `BatchLimitResult` from `types.rs`, fields as populated in
`batch_update_spending_limits`. -/
structure BatchLimitResult where
  batch_id : Nat
  total_requests : Nat
  successful : Nat
  failed : Nat
  results : List LimitUpdateResult
  metrics : BatchLimitMetrics
deriving Repr, DecidableEq

/-- Modelled from the spec: `MAX_BATCH_SIZE` is declared in the missing
`types.rs`; its numeric value is not recorded in the spec, only that it
is a fixed positive bound on batch length.  The claims quantify over
batches of length at most `MAX_BATCH_SIZE`, so any fixed positive value
is faithful. -/
def MAX_BATCH_SIZE : Nat := 100

/-- Modelled from the spec: the host label constraint on `category`
checked by the missing `validation.rs` ("category must be well-formed
per the host's label constraints").  Modelled as a non-empty label of
bounded length, matching Soroban symbol-style constraints. -/
def category_well_formed (c : String) : Bool :=
  c.length > 0 && c.length ≤ 32

/-- Modelled from the spec: `validate_limit_request` from the missing
`validation.rs`.  Per spec §4.1 it is pure and stateless, checks in
order with first failure winning: the monthly limit must be positive,
then the category must be well-formed; it returns an error code rather
than panicking. -/
def validate_limit_request (request : SpendingLimitRequest) :
    Except ErrorCode Unit :=
  if request.monthly_limit ≤ 0 then .error .InvalidLimitAmount
  else if !category_well_formed request.category then .error .InvalidCategory
  else .ok ()

/-- The contract's persistent storage.  Each field stands for one
`DataKey` family: `Admin`, `LastBatchId`, `TotalLimitsUpdated`,
`TotalBatchesProcessed`, `SpendingLimit(user)`,
`DailySpending(user, day_id)`, `MonthlySpending(user, month_id)`.
Counters read as `0` when absent, mirroring `unwrap_or(0)`. -/
structure ContractState where
  admin : Option Nat
  lastBatchId : Nat
  totalLimitsUpdated : Nat
  totalBatchesProcessed : Nat
  limits : Nat → Option SpendingLimit
  daily : Nat → Nat → Int
  monthly : Nat → Nat → Int

/-- The pristine store before `initialize`: no admin, no limits, all
counters absent (hence reading `0`). -/
def initialState : ContractState :=
  { admin := none
    lastBatchId := 0
    totalLimitsUpdated := 0
    totalBatchesProcessed := 0
    limits := fun _ => none
    daily := fun _ _ => 0
    monthly := fun _ _ => 0 }

/-- Write `SpendingLimit(u)`. -/
def ContractState.setLimit (s : ContractState) (u : Nat) (l : SpendingLimit) :
    ContractState :=
  { s with limits := fun v => if v = u then some l else s.limits v }

/-- Write `DailySpending(u, d)`. -/
def ContractState.setDaily (s : ContractState) (u d : Nat) (x : Int) :
    ContractState :=
  { s with daily := fun v e => if v = u ∧ e = d then x else s.daily v e }

/-- Write `MonthlySpending(u, m)`. -/
def ContractState.setMonthly (s : ContractState) (u m : Nat) (x : Int) :
    ContractState :=
  { s with monthly := fun v e => if v = u ∧ e = m then x else s.monthly v e }

/-- `SECONDS_PER_DAY` from `enforce_spending_limit`. -/
def SECONDS_PER_DAY : Nat := 86400

/-- `SECONDS_PER_MONTH = SECONDS_PER_DAY * 30` from
`enforce_spending_limit`. -/
def SECONDS_PER_MONTH : Nat := SECONDS_PER_DAY * 30

/-- The daily-limit derivation inlined in `enforce_spending_limit`
(lib.rs lines 319-324): `0` when `monthly_limit <= 0`, otherwise
`monthly_limit / 30` bumped to `1` when the quotient is `0`. -/
def derive_daily_limit (monthly_limit : Int) : Int :=
  if monthly_limit ≤ 0 then 0
  else
    let base := monthly_limit / 30
    if base = 0 then 1 else base

/-- `enforce_spending_limit` (lib.rs lines 275-374).  `now` is the
ledger timestamp `env.ledger().timestamp()`.  The state component of
the result is the sequentially threaded store: on an abort it equals
the input state because every abort in the source fires before any
write. -/
def enforce_spending_limit (s : ContractState) (user : Nat) (now : Nat)
    (amount : Int) : ContractState × Except AbortReason Unit :=
  if amount ≤ 0 then
    (s, .error (.tagged .InvalidAmount))
  else
    match s.limits user with
    | none => (s, .ok ())
    | some limit =>
      if !limit.is_active then (s, .ok ())
      else
        let day_id := now / SECONDS_PER_DAY
        let month_id := now / SECONDS_PER_MONTH
        let current_daily := s.daily user day_id
        let current_monthly := s.monthly user month_id
        match checked_add_i128 current_daily amount with
        | none => (s, .error (.tagged .InvalidBatch))
        | some new_daily =>
          match checked_add_i128 current_monthly amount with
          | none => (s, .error (.tagged .InvalidBatch))
          | some new_monthly =>
            let daily_limit := derive_daily_limit limit.monthly_limit
            let daily_ok := !(new_daily > daily_limit)
            let monthly_ok := !(new_monthly > limit.monthly_limit)
            if !daily_ok || !monthly_ok then
              if !daily_ok then (s, .error (.tagged .DailyLimitExceeded))
              else (s, .error (.tagged .MonthlyLimitExceeded))
            else
              let s1 := s.setDaily user day_id new_daily
              let s2 := s1.setMonthly user month_id new_monthly
              let limit2 :=
                { limit with
                  current_spending := new_monthly
                  updated_at := month_id }
              (s2.setLimit user limit2, .ok ())

/-- The fresh `SpendingLimit` built for a valid request inside the
batch loop (lib.rs lines 156-163): spending reset to `0`, active,
stamped with the current ledger sequence. -/
def mk_limit (request : SpendingLimitRequest) (current_ledger : Nat) :
    SpendingLimit :=
  { user := request.user
    monthly_limit := request.monthly_limit
    current_spending := 0
    category := request.category
    updated_at := current_ledger
    is_active := true }

/-- The high-value notification threshold from lib.rs line 180. -/
def HIGH_VALUE_THRESHOLD : Int := 10000000000000000

/-- Accumulator threaded through the batch loop: the store plus the
loop-local `results`, `successful_count`, `failed_count`,
`total_limits_value`. -/
structure BatchAcc where
  state : ContractState
  results : List LimitUpdateResult
  successful : Nat
  failed : Nat
  total_value : Int

/-- One iteration of the batch loop (lib.rs lines 151-204).  On a valid
request: build the fresh limit, accumulate `total_limits_value` with
`checked_add(..).unwrap_or(i128::MAX)` (saturating), bump
`successful_count`, store the limit, append `Success`.  On an invalid
request: bump `failed_count`, append `Failure`; the store is untouched
for that user. -/
def process_request (current_ledger : Nat) (acc : BatchAcc)
    (request : SpendingLimitRequest) : BatchAcc :=
  match validate_limit_request request with
  | .ok () =>
    let limit := mk_limit request current_ledger
    let total_value :=
      match checked_add_i128 acc.total_value request.monthly_limit with
      | some v => v
      | none => I128_MAX
    { state := acc.state.setLimit request.user limit
      results := acc.results ++ [.Success limit]
      successful := acc.successful + 1
      failed := acc.failed
      total_value := total_value }
  | .error error_code =>
    { state := acc.state
      results := acc.results ++ [.Failure request.user error_code]
      successful := acc.successful
      failed := acc.failed + 1
      total_value := acc.total_value }

/-- `batch_update_spending_limits` (lib.rs lines 112-263).  `seq` is
the ledger sequence number `env.ledger().sequence()`.  The caller's
`require_auth()` is the host capability gate, outside the model; the
admin comparison of `require_admin` is embedded.  On an abort the
threaded state equals the input state because each abort in the source
fires before any write. -/
def batch_update_spending_limits (s : ContractState) (caller : Nat)
    (seq : Nat) (requests : List SpendingLimitRequest) :
    ContractState × Except AbortReason BatchLimitResult :=
  match s.admin with
  | none => (s, .error (.genericPanic "Contract not initialized"))
  | some admin =>
    if caller ≠ admin then (s, .error (.tagged .Unauthorized))
    else
      let request_count := requests.length
      if request_count = 0 then (s, .error (.tagged .EmptyBatch))
      else if request_count > MAX_BATCH_SIZE then
        (s, .error (.tagged .BatchTooLarge))
      else
        let batch_id := s.lastBatchId + 1
        let current_ledger := seq
        let acc :=
          requests.foldl (process_request current_ledger)
            ⟨s, [], 0, 0, 0⟩
        let avg_limit_amount :=
          if acc.successful > 0 then
            acc.total_value / (acc.successful : Int)
          else 0
        let metrics : BatchLimitMetrics :=
          { total_requests := request_count
            successful_updates := acc.successful
            failed_updates := acc.failed
            total_limits_value := acc.total_value
            avg_limit_amount := avg_limit_amount
            processed_at := current_ledger }
        let s1 :=
          { acc.state with
            lastBatchId := batch_id
            totalLimitsUpdated := acc.state.totalLimitsUpdated + acc.successful
            totalBatchesProcessed := acc.state.totalBatchesProcessed + 1 }
        (s1,
          .ok
            { batch_id := batch_id
              total_requests := request_count
              successful := acc.successful
              failed := acc.failed
              results := acc.results
              metrics := metrics })

/-- `initialize` (lib.rs lines 73-86): refuses a second call with a
bare panic, otherwise records the admin and zeroes the three global
counters. -/
def init_contract (s : ContractState) (admin : Nat) :
    ContractState × Except AbortReason Unit :=
  match s.admin with
  | some _ => (s, .error (.genericPanic "Contract already initialized"))
  | none =>
    ({ s with
        admin := some admin
        lastBatchId := 0
        totalLimitsUpdated := 0
        totalBatchesProcessed := 0 },
      .ok ())

/-- `get_spending_limit` (lib.rs lines 384-388). -/
def get_spending_limit (s : ContractState) (user : Nat) :
    Option SpendingLimit :=
  s.limits user

/-- `get_admin` (lib.rs lines 391-396): `.expect` is a bare panic, not
a tagged contract error. -/
def get_admin (s : ContractState) : Except AbortReason Nat :=
  match s.admin with
  | some a => .ok a
  | none => .error (.genericPanic "Contract not initialized")

/-- `set_admin` (lib.rs lines 399-404); `require_admin` panics with
`.expect` when uninitialized, `Unauthorized` when the caller is not the
admin. -/
def set_admin (s : ContractState) (current_admin new_admin : Nat) :
    ContractState × Except AbortReason Unit :=
  match s.admin with
  | none => (s, .error (.genericPanic "Contract not initialized"))
  | some admin =>
    if current_admin ≠ admin then (s, .error (.tagged .Unauthorized))
    else ({ s with admin := some new_admin }, .ok ())

/-- `get_last_batch_id` (lib.rs lines 407-412). -/
def get_last_batch_id (s : ContractState) : Nat :=
  s.lastBatchId

/-- `get_total_limits_updated` (lib.rs lines 415-420). -/
def get_total_limits_updated (s : ContractState) : Nat :=
  s.totalLimitsUpdated

/-- `get_total_batches_processed` (lib.rs lines 423-428). -/
def get_total_batches_processed (s : ContractState) : Nat :=
  s.totalBatchesProcessed

/-- States reachable from the pristine store through the public
operations.  Erroring calls keep the threaded state equal to the input
state, so taking the first component in every case also covers the
host's discard-on-abort semantics. -/
inductive Reachable : ContractState → Prop
  | init : Reachable initialState
  | initialize_step (s : ContractState) (a : Nat) :
      Reachable s → Reachable (init_contract s a).1
  | batch_step (s : ContractState) (caller seq : Nat)
      (requests : List SpendingLimitRequest) :
      Reachable s →
      Reachable (batch_update_spending_limits s caller seq requests).1
  | enforce_step (s : ContractState) (user now : Nat) (amount : Int) :
      Reachable s → Reachable (enforce_spending_limit s user now amount).1
  | set_admin_step (s : ContractState) (c n : Nat) :
      Reachable s → Reachable (set_admin s c n).1

/-! ## Basic store lemmas -/

@[simp] theorem setLimit_limits_self (s : ContractState) (u : Nat)
    (l : SpendingLimit) : (s.setLimit u l).limits u = some l := by
  simp [ContractState.setLimit]

theorem setLimit_limits (s : ContractState) (u v : Nat) (l : SpendingLimit) :
    (s.setLimit u l).limits v = if v = u then some l else s.limits v := rfl

@[simp] theorem setLimit_daily (s : ContractState) (u : Nat)
    (l : SpendingLimit) : (s.setLimit u l).daily = s.daily := rfl

@[simp] theorem setLimit_monthly (s : ContractState) (u : Nat)
    (l : SpendingLimit) : (s.setLimit u l).monthly = s.monthly := rfl

@[simp] theorem setLimit_admin (s : ContractState) (u : Nat)
    (l : SpendingLimit) : (s.setLimit u l).admin = s.admin := rfl

@[simp] theorem setDaily_limits (s : ContractState) (u d : Nat) (x : Int) :
    (s.setDaily u d x).limits = s.limits := rfl

@[simp] theorem setDaily_monthly (s : ContractState) (u d : Nat) (x : Int) :
    (s.setDaily u d x).monthly = s.monthly := rfl

@[simp] theorem setDaily_daily_self (s : ContractState) (u d : Nat) (x : Int) :
    (s.setDaily u d x).daily u d = x := by
  simp [ContractState.setDaily]

@[simp] theorem setMonthly_limits (s : ContractState) (u m : Nat) (x : Int) :
    (s.setMonthly u m x).limits = s.limits := rfl

@[simp] theorem setMonthly_daily (s : ContractState) (u m : Nat) (x : Int) :
    (s.setMonthly u m x).daily = s.daily := rfl

@[simp] theorem setMonthly_monthly_self (s : ContractState) (u m : Nat)
    (x : Int) : (s.setMonthly u m x).monthly u m = x := by
  simp [ContractState.setMonthly]

/-! ## Batch-loop lemmas -/

/-- Whether a request passes `validate_limit_request`. -/
def request_valid (request : SpendingLimitRequest) : Bool :=
  match validate_limit_request request with
  | .ok () => true
  | .error _ => false

/-- The per-request outcome recorded by the batch loop, as a function
of that request alone (and the ledger sequence used to stamp fresh
limits). -/
def item_result (current_ledger : Nat) (request : SpendingLimitRequest) :
    LimitUpdateResult :=
  match validate_limit_request request with
  | .ok () => .Success (mk_limit request current_ledger)
  | .error e => .Failure request.user e

theorem foldl_process_results (seq : Nat) (l : List SpendingLimitRequest)
    (acc : BatchAcc) :
    (l.foldl (process_request seq) acc).results =
      acc.results ++ l.map (item_result seq) ∧
    (l.foldl (process_request seq) acc).successful =
      acc.successful + l.countP request_valid ∧
    (l.foldl (process_request seq) acc).failed =
      acc.failed + l.countP (fun r => !request_valid r) := by
  induction l generalizing acc with
  | nil => simp
  | cons r t ih =>
    rcases h : validate_limit_request r with e | u
    · have hv : request_valid r = false := by simp [request_valid, h]
      have := ih (process_request seq acc r)
      simp only [List.foldl_cons] at *
      refine ⟨?_, ?_, ?_⟩
      · rw [this.1]
        simp [process_request, h, item_result, hv]
      · rw [this.2.1]
        simp [process_request, h, hv, List.countP_cons]
      · rw [this.2.2]
        simp [process_request, h, hv, List.countP_cons]
        omega
    · have hv : request_valid r = true := by simp [request_valid, h]
      have := ih (process_request seq acc r)
      simp only [List.foldl_cons] at *
      refine ⟨?_, ?_, ?_⟩
      · rw [this.1]
        simp [process_request, h, item_result, hv]
      · rw [this.2.1]
        simp [process_request, h, hv, List.countP_cons]
        omega
      · rw [this.2.2]
        simp [process_request, h, hv, List.countP_cons]

/-! ## C3: daily-limit derivation -/

/-- C3: in `enforce_spending_limit`, the derived daily limit is `0`
when `monthly_limit ≤ 0` and `max 1 (monthly_limit / 30)` (integer
division) when `monthly_limit > 0`; in particular every positive
monthly limit, including values below 30, yields a daily limit of at
least 1. -/
theorem c3_derive_daily_limit (m : Int) :
    (m ≤ 0 → derive_daily_limit m = 0) ∧
    (0 < m →
      derive_daily_limit m = max 1 (m / 30) ∧ 1 ≤ derive_daily_limit m) := by
  constructor
  · intro h
    simp [derive_daily_limit, h]
  · intro h
    have hnot : ¬ m ≤ 0 := not_le.mpr h
    have hge : 0 ≤ m / 30 := Int.ediv_nonneg h.le (by norm_num)
    by_cases hb : m / 30 = 0
    · constructor
      · simp [derive_daily_limit, hnot, hb]
      · simp [derive_daily_limit, hnot, hb]
    · have h1 : 1 ≤ m / 30 := by omega
      constructor
      · simp [derive_daily_limit, hnot, hb]
        omega
      · simp [derive_daily_limit, hnot, hb]
        omega

/-- Witness for C3 at `m = -5`, `m = 29` and `m = 300`. -/
theorem c3_derive_daily_limit_witness :
    derive_daily_limit (-5) = 0 ∧
    (derive_daily_limit 29 = max 1 (29 / 30) ∧ 1 ≤ derive_daily_limit 29) ∧
    (derive_daily_limit 300 = max 1 (300 / 30) ∧
      1 ≤ derive_daily_limit 300) :=
  ⟨(c3_derive_daily_limit (-5)).1 (by decide),
   (c3_derive_daily_limit 29).2 (by decide),
   (c3_derive_daily_limit 300).2 (by decide)⟩

/-! ## C8: missing or inactive limit is a no-op -/

/-- C8: for a user with no stored `SpendingLimit`, and for every
`amount > 0`, `enforce_spending_limit` returns normally with the state
unchanged (zero storage writes); the same holds when the stored limit
has `is_active = false`. -/
theorem c8_enforce_noop_without_active_limit (s : ContractState)
    (user now : Nat) (amount : Int) (hpos : 0 < amount) :
    (s.limits user = none →
      enforce_spending_limit s user now amount = (s, Except.ok ())) ∧
    (∀ l, s.limits user = some l → l.is_active = false →
      enforce_spending_limit s user now amount = (s, Except.ok ())) := by
  have hneg : ¬ amount ≤ 0 := not_le.mpr hpos
  constructor
  · intro hnone
    simp [enforce_spending_limit, hneg, hnone]
  · intro l hsome hact
    simp [enforce_spending_limit, hneg, hsome, hact]

/-- A concrete state with one inactive limit, used to witness C8. -/
def c8_inactive_state : ContractState :=
  { initialState with
    limits := fun v =>
      if v = 2 then
        some
          { user := 2
            monthly_limit := 300
            current_spending := 0
            category := "food"
            updated_at := 0
            is_active := false }
      else none }

/-- Witness for C8: user 1 has no limit in `initialState`; user 2 has
an inactive limit in `c8_inactive_state`; a spend of 7 is a no-op in
both cases. -/
theorem c8_enforce_noop_without_active_limit_witness :
    enforce_spending_limit initialState 1 0 7 =
      (initialState, Except.ok ()) ∧
    enforce_spending_limit c8_inactive_state 2 0 7 =
      (c8_inactive_state, Except.ok ()) :=
  ⟨(c8_enforce_noop_without_active_limit initialState 1 0 7 (by decide)).1
      rfl,
   (c8_enforce_noop_without_active_limit c8_inactive_state 2 0 7
        (by decide)).2 _ rfl rfl⟩

/-! ## C1: period-counter accumulation is checked, not saturating -/

/-- The active limit stored in the C1 counterexample state. -/
def c1_limit : SpendingLimit := mk_limit ⟨1, 300, "food"⟩ 0

/-- A state with an active limit for user 1 whose stored daily counter
already sits at `i128::MAX`. -/
def c1_cex_state : ContractState :=
  { initialState with
    admin := some 0
    limits := fun v => if v = 1 then some c1_limit else none
    daily := fun v d => if v = 1 ∧ d = 0 then I128_MAX else 0 }

/-- Counterexample to C1.  With an active stored limit and
`amount = 1 > 0`, the stored daily counter at `i128::MAX` makes
`current_daily + amount` overflow `i128`; the claim says the sum
saturates at the maximum representable value and the call never aborts
because of overflow, but `enforce_spending_limit` aborts with the
`InvalidBatch` error code (the `checked_add(..)` at lib.rs lines
311-316 panics rather than saturating). -/
theorem c1_counterexample :
    (0 : Int) < 1 ∧
    c1_cex_state.limits 1 = some c1_limit ∧
    c1_limit.is_active = true ∧
    c1_cex_state.daily 1 (0 / SECONDS_PER_DAY) = I128_MAX ∧
    enforce_spending_limit c1_cex_state 1 0 1 =
      (c1_cex_state,
        Except.error (AbortReason.tagged SpendingLimitError.InvalidBatch)) :=
  ⟨by decide, rfl, rfl, rfl, rfl⟩

/-- C1 as amended: the new period totals are computed with *checked*
i128 addition, not saturating addition.  When either sum leaves the
i128 range the call aborts with the `InvalidBatch` error code and the
state is unchanged; when the call returns normally both stored period
counters hold the exact mathematical sums `current + amount` (no
capping). -/
theorem c1_enforce_checked_addition (s : ContractState) (user now : Nat)
    (amount : Int) (limit : SpendingLimit)
    (hlim : s.limits user = some limit) (hact : limit.is_active = true)
    (hpos : 0 < amount) :
    (¬ isI128 (s.daily user (now / SECONDS_PER_DAY) + amount) ∨
        ¬ isI128 (s.monthly user (now / SECONDS_PER_MONTH) + amount) →
      enforce_spending_limit s user now amount =
        (s,
          Except.error (AbortReason.tagged SpendingLimitError.InvalidBatch))) ∧
    (∀ s', enforce_spending_limit s user now amount = (s', Except.ok ()) →
      s'.daily user (now / SECONDS_PER_DAY) =
        s.daily user (now / SECONDS_PER_DAY) + amount ∧
      s'.monthly user (now / SECONDS_PER_MONTH) =
        s.monthly user (now / SECONDS_PER_MONTH) + amount) := by
  have hneg : ¬ amount ≤ 0 := not_le.mpr hpos
  constructor
  · intro hover
    by_cases hd : isI128 (s.daily user (now / SECONDS_PER_DAY) + amount)
    · have hm : ¬ isI128 (s.monthly user (now / SECONDS_PER_MONTH) + amount) := by
        tauto
      simp [enforce_spending_limit, hneg, hlim, hact, checked_add_i128, hd,
        hm]
    · simp [enforce_spending_limit, hneg, hlim, hact, checked_add_i128, hd]
  · intro s' hrun
    by_cases hd : isI128 (s.daily user (now / SECONDS_PER_DAY) + amount)
    · by_cases hm : isI128 (s.monthly user (now / SECONDS_PER_MONTH) + amount)
      · by_cases hdo : derive_daily_limit limit.monthly_limit <
            s.daily user (now / SECONDS_PER_DAY) + amount
        · exfalso
          simp [enforce_spending_limit, hneg, hlim, hact, checked_add_i128,
            hd, hm, hdo] at hrun
        · by_cases hmo : limit.monthly_limit <
              s.monthly user (now / SECONDS_PER_MONTH) + amount
          · exfalso
            simp [enforce_spending_limit, hneg, hlim, hact,
              checked_add_i128, hd, hm, hdo, hmo] at hrun
          · simp [enforce_spending_limit, hneg, hlim, hact,
              checked_add_i128, hd, hm, hdo, hmo, Prod.ext_iff] at hrun
            subst hrun
            constructor
            · simp [ContractState.setLimit, ContractState.setMonthly,
                ContractState.setDaily]
            · simp [ContractState.setLimit, ContractState.setMonthly]
      · exfalso
        simp [enforce_spending_limit, hneg, hlim, hact, checked_add_i128,
          hd, hm] at hrun
    · exfalso
      simp [enforce_spending_limit, hneg, hlim, hact, checked_add_i128,
        hd] at hrun

/-- A state with an active limit of 300 for user 1 and no prior
spending. -/
def c1_ok_state : ContractState :=
  { initialState with
    limits := fun v => if v = 1 then some c1_limit else none }

/-- Witness for the amended C1: at `c1_cex_state` the daily sum
overflows and the call aborts with `InvalidBatch`; at `c1_ok_state` a
spend of 5 stores the exact sums. -/
theorem c1_enforce_checked_addition_witness :
    enforce_spending_limit c1_cex_state 1 0 1 =
      (c1_cex_state,
        Except.error (AbortReason.tagged SpendingLimitError.InvalidBatch)) ∧
    ((enforce_spending_limit c1_ok_state 1 0 5).1.daily 1
          (0 / SECONDS_PER_DAY) =
        c1_ok_state.daily 1 (0 / SECONDS_PER_DAY) + 5 ∧
      (enforce_spending_limit c1_ok_state 1 0 5).1.monthly 1
          (0 / SECONDS_PER_MONTH) =
        c1_ok_state.monthly 1 (0 / SECONDS_PER_MONTH) + 5) :=
  ⟨(c1_enforce_checked_addition c1_cex_state 1 0 1 c1_limit rfl rfl
        (by decide)).1 (Or.inl (by decide)),
   (c1_enforce_checked_addition c1_ok_state 1 0 5 c1_limit rfl rfl
        (by decide)).2 (enforce_spending_limit c1_ok_state 1 0 5).1 rfl⟩

/-! ## C2: limit violations abort with daily precedence, no writes -/

/-- A shared active test limit: user 1, monthly limit 300 (derived
daily limit 10). -/
def limit300 : SpendingLimit := mk_limit ⟨1, 300, "food"⟩ 0

/-- C2: with an active stored limit, a positive amount and
representable sums, if the new daily total exceeds the derived daily
limit the call aborts with `DailyLimitExceeded` (taking precedence even
when the monthly cap is also violated); if the daily cap passes but the
new monthly total exceeds the monthly limit the call aborts with
`MonthlyLimitExceeded`; in both cases the resulting state is exactly
the pre-call state, so the stored daily counter, monthly counter and
`SpendingLimit` record are untouched. -/
theorem c2_violation_aborts_with_precedence (s : ContractState)
    (user now : Nat) (amount : Int) (limit : SpendingLimit)
    (hlim : s.limits user = some limit) (hact : limit.is_active = true)
    (hpos : 0 < amount)
    (hd : isI128 (s.daily user (now / SECONDS_PER_DAY) + amount))
    (hm : isI128 (s.monthly user (now / SECONDS_PER_MONTH) + amount)) :
    (derive_daily_limit limit.monthly_limit <
        s.daily user (now / SECONDS_PER_DAY) + amount →
      enforce_spending_limit s user now amount =
        (s,
          Except.error
            (AbortReason.tagged SpendingLimitError.DailyLimitExceeded))) ∧
    (s.daily user (now / SECONDS_PER_DAY) + amount ≤
        derive_daily_limit limit.monthly_limit →
      limit.monthly_limit < s.monthly user (now / SECONDS_PER_MONTH) + amount →
      enforce_spending_limit s user now amount =
        (s,
          Except.error
            (AbortReason.tagged SpendingLimitError.MonthlyLimitExceeded))) := by
  have hneg : ¬ amount ≤ 0 := not_le.mpr hpos
  constructor
  · intro hdo
    simp [enforce_spending_limit, hneg, hlim, hact, checked_add_i128, hd,
      hm, hdo]
  · intro hdok hmo
    have hdo : ¬ derive_daily_limit limit.monthly_limit <
        s.daily user (now / SECONDS_PER_DAY) + amount := not_lt.mpr hdok
    simp [enforce_spending_limit, hneg, hlim, hact, checked_add_i128, hd,
      hm, hdo, hmo]

/-- Spec scenario B state: limit 300 for user 1, 5 already spent
today and this month. -/
def c2_daily_state : ContractState :=
  { initialState with
    limits := fun v => if v = 1 then some limit300 else none
    daily := fun v d => if v = 1 ∧ d = 0 then 5 else 0
    monthly := fun v m => if v = 1 ∧ m = 0 then 5 else 0 }

/-- A state where only the monthly cap can trip: nothing spent today,
298 spent this month against a limit of 300. -/
def c2_monthly_state : ContractState :=
  { initialState with
    limits := fun v => if v = 1 then some limit300 else none
    monthly := fun v m => if v = 1 ∧ m = 0 then 298 else 0 }

/-- Witness for C2: spending 6 in `c2_daily_state` trips the daily cap
(5 + 6 > 10) and aborts with `DailyLimitExceeded`; spending 5 in
`c2_monthly_state` passes the daily cap (0 + 5 ≤ 10) but trips the
monthly cap (298 + 5 > 300) and aborts with `MonthlyLimitExceeded`;
both runs leave the state untouched. -/
theorem c2_violation_aborts_with_precedence_witness :
    enforce_spending_limit c2_daily_state 1 0 6 =
      (c2_daily_state,
        Except.error
          (AbortReason.tagged SpendingLimitError.DailyLimitExceeded)) ∧
    enforce_spending_limit c2_monthly_state 1 0 5 =
      (c2_monthly_state,
        Except.error
          (AbortReason.tagged SpendingLimitError.MonthlyLimitExceeded)) :=
  ⟨(c2_violation_aborts_with_precedence c2_daily_state 1 0 6 limit300 rfl
        rfl (by decide) (by decide) (by decide)).1 (by decide),
   (c2_violation_aborts_with_precedence c2_monthly_state 1 0 5 limit300
        rfl rfl (by decide) (by decide) (by decide)).2 (by decide)
      (by decide)⟩

theorem countP_add_countP_not {α : Type} (p : α → Bool) (l : List α) :
    l.countP p + l.countP (fun a => !p a) = l.length := by
  induction l with
  | nil => simp
  | cons x t ih =>
    by_cases h : p x <;> simp [List.countP_cons, h] <;> omega

/-- A successful run of the batch processor, unfolded: with an admin
caller and a batch of legal size, the call returns the loop outcome and
persists the incremented batch id and running totals. -/
theorem batch_run_eq (s : ContractState) (caller seq : Nat)
    (requests : List SpendingLimitRequest)
    (hadmin : s.admin = some caller)
    (hne : requests ≠ []) (hlen : requests.length ≤ MAX_BATCH_SIZE) :
    batch_update_spending_limits s caller seq requests =
      (let acc := requests.foldl (process_request seq) ⟨s, [], 0, 0, 0⟩;
        ({ acc.state with
            lastBatchId := s.lastBatchId + 1
            totalLimitsUpdated := acc.state.totalLimitsUpdated + acc.successful
            totalBatchesProcessed := acc.state.totalBatchesProcessed + 1 },
          Except.ok
            { batch_id := s.lastBatchId + 1
              total_requests := requests.length
              successful := acc.successful
              failed := acc.failed
              results := acc.results
              metrics :=
                { total_requests := requests.length
                  successful_updates := acc.successful
                  failed_updates := acc.failed
                  total_limits_value := acc.total_value
                  avg_limit_amount :=
                    if acc.successful > 0 then
                      acc.total_value / (acc.successful : Int)
                    else 0
                  processed_at := seq } })) := by
  have h0 : ¬ requests.length = 0 := fun h => hne (List.length_eq_zero.mp h)
  have hbig : ¬ requests.length > MAX_BATCH_SIZE := not_lt.mpr hlen
  simp [batch_update_spending_limits, hadmin, h0, hbig]

/-! ## C4: batch results are per-request, ordered, and add up -/

/-- C4: for every admin-authorized batch call with a non-empty request
list of length at most `MAX_BATCH_SIZE`, the returned
`BatchLimitResult` holds exactly one `LimitUpdateResult` per input
request in input order, `successful + failed = total_requests`, and
each entry equals `item_result seq request` — a function of that
request alone, so one request's failure never changes another
request's outcome. -/
theorem c4_batch_per_request_outcomes (s : ContractState)
    (caller seq : Nat) (requests : List SpendingLimitRequest)
    (hadmin : s.admin = some caller) (hne : requests ≠ [])
    (hlen : requests.length ≤ MAX_BATCH_SIZE) :
    ∃ r, (batch_update_spending_limits s caller seq requests).2 =
        Except.ok r ∧
      r.results = requests.map (item_result seq) ∧
      r.results.length = requests.length ∧
      r.total_requests = requests.length ∧
      r.successful + r.failed = r.total_requests := by
  rw [batch_run_eq s caller seq requests hadmin hne hlen]
  have h := foldl_process_results seq requests ⟨s, [], 0, 0, 0⟩
  refine ⟨_, rfl, ?_, ?_, rfl, ?_⟩
  · simpa using h.1
  · have h1 : (requests.foldl (process_request seq)
        ⟨s, [], 0, 0, 0⟩).results = requests.map (item_result seq) := by
      simpa using h.1
    simp [h1]
  · have h2 := h.2.1
    have h3 := h.2.2
    simp only [Nat.zero_add] at h2 h3
    simp only [h2, h3]
    exact countP_add_countP_not request_valid requests

/-- C5-independent concrete batch for the C4 witness: three requests,
the middle one invalid (`monthly_limit = 0`), spec scenario A. -/
def c4_requests : List SpendingLimitRequest :=
  [⟨1, 300, "food"⟩, ⟨2, 0, "x"⟩, ⟨3, 600, "rent"⟩]

/-- The state after initializing with admin 0, for the C4 witness. -/
def c4_s1 : ContractState := (init_contract initialState 0).1

/-- Witness for C4 at scenario A: the batch returns one result per
request in order, with the middle entry an `InvalidLimitAmount`
failure, and `2 + 1 = 3`. -/
theorem c4_batch_per_request_outcomes_witness :
    ∃ r, (batch_update_spending_limits c4_s1 0 5 c4_requests).2 =
        Except.ok r ∧
      r.results = c4_requests.map (item_result 5) ∧
      r.results.length = c4_requests.length ∧
      r.total_requests = c4_requests.length ∧
      r.successful + r.failed = r.total_requests :=
  c4_batch_per_request_outcomes c4_s1 0 5 c4_requests rfl
    (by decide) (by decide)

/-! ## C6: batch ids increase strictly, starting at 1 -/

/-- C6: a successful batch call returns
`batch_id = lastBatchId + 1` and persists it, so `get_last_batch_id`
reports the most recent batch; `initialize` stores `LastBatchId = 0`,
so the first batch after initialization gets id 1; and a second
successful batch from the resulting state gets exactly the next id,
making ids strictly increasing across successive successful calls. -/
theorem c6_batch_id_strictly_increasing (s : ContractState)
    (caller seq : Nat) (requests : List SpendingLimitRequest)
    (hadmin : s.admin = some caller) (hne : requests ≠ [])
    (hlen : requests.length ≤ MAX_BATCH_SIZE) :
    (∀ s0 a, (init_contract s0 a).2 = Except.ok () →
      (init_contract s0 a).1.lastBatchId = 0) ∧
    ∃ s' r, batch_update_spending_limits s caller seq requests =
        (s', Except.ok r) ∧
      r.batch_id = s.lastBatchId + 1 ∧
      s.lastBatchId < r.batch_id ∧
      s'.lastBatchId = r.batch_id ∧
      get_last_batch_id s' = r.batch_id ∧
      (∀ caller2 seq2 requests2, s'.admin = some caller2 →
        requests2 ≠ [] → requests2.length ≤ MAX_BATCH_SIZE →
        ∃ s'' r2, batch_update_spending_limits s' caller2 seq2 requests2 =
            (s'', Except.ok r2) ∧
          r2.batch_id = r.batch_id + 1 ∧ r.batch_id < r2.batch_id) := by
  constructor
  · intro s0 a hok
    rcases h : s0.admin with _ | a0
    · simp [init_contract, h]
    · exfalso
      simp [init_contract, h] at hok
  · rw [batch_run_eq s caller seq requests hadmin hne hlen]
    refine ⟨_, _, rfl, rfl, Nat.lt_succ_self _, rfl, rfl, ?_⟩
    intro caller2 seq2 requests2 hadmin2 hne2 hlen2
    rw [batch_run_eq _ caller2 seq2 requests2 hadmin2 hne2 hlen2]
    exact ⟨_, _, rfl, rfl, Nat.lt_succ_self _⟩

/-- Witness for C6: from the freshly initialized state, a first batch
gets id 1 and a second batch from the resulting state gets id 2. -/
theorem c6_batch_id_strictly_increasing_witness :
    (init_contract initialState 0).2 = Except.ok () ∧
    c4_s1.lastBatchId = 0 ∧
    ∃ s' r, batch_update_spending_limits c4_s1 0 5 c4_requests =
        (s', Except.ok r) ∧ r.batch_id = 1 ∧
      ∃ s'' r2, batch_update_spending_limits s' 0 6 c4_requests =
          (s'', Except.ok r2) ∧ r2.batch_id = 2 := by
  refine ⟨rfl, rfl, ?_⟩
  obtain ⟨-, s', r, hrun, hid, -, hpersist, -, hnext⟩ :=
    c6_batch_id_strictly_increasing c4_s1 0 5 c4_requests rfl
      (by decide) (by decide)
  have hs' : s' = (batch_update_spending_limits c4_s1 0 5 c4_requests).1 := by
    rw [hrun]
  have hadm2 : s'.admin = some 0 := by
    rw [hs']
    rfl
  obtain ⟨s'', r2, hrun2, hid2, -⟩ :=
    hnext 0 6 c4_requests hadm2 (by decide) (by decide)
  refine ⟨s', r, hrun, ?_, s'', r2, hrun2, ?_⟩
  · rw [hid]
    rfl
  · rw [hid2, hid]
    rfl

/-! ## C7: a successful update stores a fresh, active, zero-spend limit -/

theorem foldl_process_keeps_good (seq : Nat)
    (l : List SpendingLimitRequest) (acc : BatchAcc) (u : Nat)
    (h : ∃ lim, acc.state.limits u = some lim ∧
      lim.current_spending = 0 ∧ lim.is_active = true) :
    ∃ lim, (l.foldl (process_request seq) acc).state.limits u = some lim ∧
      lim.current_spending = 0 ∧ lim.is_active = true := by
  induction l generalizing acc with
  | nil => simpa using h
  | cons r t ih =>
    simp only [List.foldl_cons]
    apply ih
    cases hv : validate_limit_request r with
    | error e => simpa [process_request, hv] using h
    | ok u' =>
      cases u'
      by_cases hu : u = r.user
      · subst hu
        refine ⟨mk_limit r seq, ?_, rfl, rfl⟩
        simp [process_request, hv]
      · obtain ⟨lim, hlim, h0, ha⟩ := h
        refine ⟨lim, ?_, h0, ha⟩
        simpa [process_request, hv, ContractState.setLimit, hu] using hlim

theorem foldl_process_mem_good (seq : Nat)
    (l : List SpendingLimitRequest) (acc : BatchAcc)
    (req : SpendingLimitRequest) (hmem : req ∈ l)
    (hvalid : validate_limit_request req = Except.ok ()) :
    ∃ lim, (l.foldl (process_request seq) acc).state.limits req.user =
        some lim ∧
      lim.current_spending = 0 ∧ lim.is_active = true := by
  induction l generalizing acc with
  | nil => cases hmem
  | cons r t ih =>
    simp only [List.foldl_cons]
    rcases List.mem_cons.mp hmem with heq | hmem'
    · subst heq
      apply foldl_process_keeps_good
      refine ⟨mk_limit req seq, ?_, rfl, rfl⟩
      simp [process_request, hvalid]
    · exact ih _ hmem'

/-- C7: for every request of an admin-authorized legal batch that
passes validation, the `SpendingLimit` stored for that user after the
call has `current_spending = 0` and `is_active = true`, whatever was
stored for that user before. -/
theorem c7_valid_request_stores_reset_active_limit (s : ContractState)
    (caller seq : Nat) (requests : List SpendingLimitRequest)
    (hadmin : s.admin = some caller) (hne : requests ≠ [])
    (hlen : requests.length ≤ MAX_BATCH_SIZE)
    (req : SpendingLimitRequest) (hmem : req ∈ requests)
    (hvalid : validate_limit_request req = Except.ok ()) :
    ∃ lim, (batch_update_spending_limits s caller seq requests).1.limits
        req.user = some lim ∧
      lim.current_spending = 0 ∧ lim.is_active = true := by
  rw [batch_run_eq s caller seq requests hadmin hne hlen]
  exact foldl_process_mem_good seq requests ⟨s, [], 0, 0, 0⟩ req hmem hvalid

/-- A previously stored limit for user 1 with nonzero spending, to
witness that C7 holds regardless of the prior value. -/
def c7_prior_state : ContractState :=
  { initialState with
    admin := some 0
    limits := fun v =>
      if v = 1 then
        some
          { user := 1
            monthly_limit := 50
            current_spending := 44
            category := "old"
            updated_at := 2
            is_active := false }
      else none }

/-- Witness for C7: re-running a batch for user 1 over a stale
inactive limit with spending 44 stores a limit with spending 0 and
active. -/
theorem c7_valid_request_stores_reset_active_limit_witness :
    ∃ lim,
      (batch_update_spending_limits c7_prior_state 0 9
          [⟨1, 300, "food"⟩]).1.limits 1 = some lim ∧
      lim.current_spending = 0 ∧ lim.is_active = true :=
  c7_valid_request_stores_reset_active_limit c7_prior_state 0 9
    [⟨1, 300, "food"⟩] rfl (by decide) (by decide) ⟨1, 300, "food"⟩
    (List.mem_singleton.mpr rfl) rfl

/-! ## C10: every stored limit is active; the inactive branch is dead -/

/-- Every stored `SpendingLimit` has `is_active = true`. -/
def all_limits_active (s : ContractState) : Prop :=
  ∀ u lim, s.limits u = some lim → lim.is_active = true

theorem foldl_process_active (seq : Nat) (l : List SpendingLimitRequest)
    (acc : BatchAcc) (h : all_limits_active acc.state) :
    all_limits_active (l.foldl (process_request seq) acc).state := by
  induction l generalizing acc with
  | nil => simpa using h
  | cons r t ih =>
    simp only [List.foldl_cons]
    apply ih
    cases hv : validate_limit_request r with
    | error e => simpa [process_request, hv] using h
    | ok u' =>
      cases u'
      intro u lim hlim
      by_cases hu : u = r.user
      · subst hu
        simp [process_request, hv] at hlim
        rw [← hlim]
        rfl
      · apply h u lim
        simpa [process_request, hv, ContractState.setLimit, hu] using hlim

theorem init_contract_preserves_active (s : ContractState) (a : Nat)
    (h : all_limits_active s) :
    all_limits_active (init_contract s a).1 := by
  rcases hadm : s.admin with _ | x
  · intro u lim hl
    exact h u lim (by simpa [init_contract, hadm] using hl)
  · intro u lim hl
    exact h u lim (by simpa [init_contract, hadm] using hl)

theorem set_admin_preserves_active (s : ContractState) (c n : Nat)
    (h : all_limits_active s) :
    all_limits_active (set_admin s c n).1 := by
  rcases hadm : s.admin with _ | x
  · intro u lim hl
    exact h u lim (by simpa [set_admin, hadm] using hl)
  · by_cases hc : c ≠ x
    · intro u lim hl
      exact h u lim (by simpa [set_admin, hadm, hc] using hl)
    · intro u lim hl
      exact h u lim (by simpa [set_admin, hadm, hc] using hl)

theorem batch_preserves_active (s : ContractState) (caller seq : Nat)
    (requests : List SpendingLimitRequest) (h : all_limits_active s) :
    all_limits_active
      (batch_update_spending_limits s caller seq requests).1 := by
  rcases hadm : s.admin with _ | a
  · simpa [batch_update_spending_limits, hadm] using h
  · by_cases hc : caller ≠ a
    · simpa [batch_update_spending_limits, hadm, hc] using h
    · by_cases h0 : requests.length = 0
      · simpa [batch_update_spending_limits, hadm, hc, h0] using h
      · by_cases hbig : requests.length > MAX_BATCH_SIZE
        · simpa [batch_update_spending_limits, hadm, hc, h0, hbig] using h
        · have hcall : caller = a := not_not.mp hc
          subst hcall
          rw [batch_run_eq s caller seq requests hadm
            (fun he => h0 (by simp [he])) (not_lt.mp hbig)]
          intro u lim hl
          exact foldl_process_active seq requests ⟨s, [], 0, 0, 0⟩ h u lim hl

theorem enforce_preserves_active (s : ContractState) (user now : Nat)
    (amount : Int) (h : all_limits_active s) :
    all_limits_active (enforce_spending_limit s user now amount).1 := by
  by_cases hneg : amount ≤ 0
  · simpa [enforce_spending_limit, hneg] using h
  · cases hlim : s.limits user with
    | none => simpa [enforce_spending_limit, hneg, hlim] using h
    | some limit =>
      cases hact : limit.is_active with
      | false => simpa [enforce_spending_limit, hneg, hlim, hact] using h
      | true =>
        cases hd : checked_add_i128 (s.daily user (now / SECONDS_PER_DAY))
            amount with
        | none =>
          simpa [enforce_spending_limit, hneg, hlim, hact, hd] using h
        | some nd =>
          cases hm : checked_add_i128
              (s.monthly user (now / SECONDS_PER_MONTH)) amount with
          | none =>
            simpa [enforce_spending_limit, hneg, hlim, hact, hd, hm] using h
          | some nm =>
            by_cases hdo : derive_daily_limit limit.monthly_limit < nd
            · simpa [enforce_spending_limit, hneg, hlim, hact, hd, hm,
                hdo] using h
            · by_cases hmo : limit.monthly_limit < nm
              · simpa [enforce_spending_limit, hneg, hlim, hact, hd, hm,
                  hdo, hmo] using h
              · intro u lim2 hl
                by_cases hu : u = user
                · subst hu
                  simp [enforce_spending_limit, hneg, hlim, hact, hd, hm,
                    hdo, hmo, ContractState.setLimit,
                    ContractState.setMonthly, ContractState.setDaily] at hl
                  rw [← hl]
                · refine h u lim2 ?_
                  simpa [enforce_spending_limit, hneg, hlim, hact, hd, hm,
                    hdo, hmo, ContractState.setLimit,
                    ContractState.setMonthly, ContractState.setDaily,
                    hu] using hl

/-- C10: in every state reachable through the public operations, every
stored `SpendingLimit` has `is_active = true` — batch updates only
store active limits and `enforce_spending_limit` never changes
`is_active` — so no sequence of public calls can deactivate a limit,
and the inactive-limit early return of `enforce_spending_limit` can
never fire from public-interface states. -/
theorem c10_reachable_limits_always_active (s : ContractState)
    (hs : Reachable s) :
    ∀ u lim, s.limits u = some lim → lim.is_active = true := by
  induction hs with
  | init =>
    intro u lim hl
    simp [initialState] at hl
  | initialize_step s0 a _ ih => exact init_contract_preserves_active s0 a ih
  | batch_step s0 caller seq reqs _ ih =>
    exact batch_preserves_active s0 caller seq reqs ih
  | enforce_step s0 user now amount _ ih =>
    exact enforce_preserves_active s0 user now amount ih
  | set_admin_step s0 c n _ ih => exact set_admin_preserves_active s0 c n ih

/-- The state after `initialize(3)` followed by a batch storing a
limit for user 7, for the C10 witness. -/
def c10_s1 : ContractState := (init_contract initialState 3).1

/-- Second step of the C10 witness trace. -/
def c10_s2 : ContractState :=
  (batch_update_spending_limits c10_s1 3 4 [⟨7, 600, "rent"⟩]).1

/-- Witness for C10: the two-call trace is reachable, user 7's stored
limit is the freshly built one, and the theorem yields its
`is_active = true`. -/
theorem c10_reachable_limits_always_active_witness :
    c10_s2.limits 7 = some (mk_limit ⟨7, 600, "rent"⟩ 4) ∧
    (mk_limit ⟨7, 600, "rent"⟩ 4).is_active = true :=
  ⟨rfl,
   c10_reachable_limits_always_active c10_s2
     (Reachable.batch_step c10_s1 3 4 [⟨7, 600, "rent"⟩]
       (Reachable.initialize_step initialState 3 Reachable.init))
     7 (mk_limit ⟨7, 600, "rent"⟩ 4) rfl⟩

/-! ## C5: `current_spending` is not an invariant mirror of the
monthly counter -/

/-- Request used in the C5 trace. -/
def c5_req : SpendingLimitRequest := ⟨1, 300, "food"⟩

/-- C5 trace, step 1: initialize with admin 0. -/
def c5_s1 : ContractState := (init_contract initialState 0).1

/-- C5 trace, step 2: first batch stores a limit of 300 for user 1. -/
def c5_s2 : ContractState :=
  (batch_update_spending_limits c5_s1 0 5 [c5_req]).1

/-- C5 trace, step 3: user 1 spends 5 at timestamp 0 (month id 0),
bringing the monthly counter and `current_spending` to 5. -/
def c5_s3 : ContractState := (enforce_spending_limit c5_s2 1 0 5).1

/-- C5 trace, step 4: a second batch for user 1 resets
`current_spending` to 0 but leaves `MonthlySpending(1, 0)` at 5. -/
def c5_s4 : ContractState :=
  (batch_update_spending_limits c5_s3 0 6 [c5_req]).1

/-- Counterexample to C5.  The four-call trace
initialize; batch; enforce(1, 5); batch — all at ledger timestamp 0 —
reaches a state where user 1's stored limit has
`current_spending = 0` while the stored `MonthlySpending(1, 0)`
counter for the current month id `0 / SECONDS_PER_MONTH = 0` is 5:
the claimed invariant fails because a batch update resets
`current_spending` without clearing the monthly counter. -/
theorem c5_counterexample :
    Reachable c5_s4 ∧
    c5_s4.limits 1 = some (mk_limit c5_req 6) ∧
    (mk_limit c5_req 6).current_spending = 0 ∧
    c5_s4.monthly 1 (0 / SECONDS_PER_MONTH) = 5 ∧
    (0 : Int) ≠ 5 :=
  ⟨Reachable.batch_step c5_s3 0 6 [c5_req]
      (Reachable.enforce_step c5_s2 1 0 5
        (Reachable.batch_step c5_s1 0 5 [c5_req]
          (Reachable.initialize_step initialState 0 Reachable.init))),
   rfl, rfl, rfl, by decide⟩

/-- C5 as amended: the mirror property holds immediately after each
successful `enforce_spending_limit` call — the stored limit's
`current_spending` then equals the post-state
`MonthlySpending(user, month_id)` counter for the month id derived
from that call's clock (and `updated_at` equals that month id) — but
it is not an invariant of all reachable states: a batch update resets
`current_spending` to 0 without clearing the monthly counter, and a
clock advance changes the month id without touching
`current_spending`. -/
theorem c5_enforce_syncs_current_spending (s : ContractState)
    (user now : Nat) (amount : Int) (limit : SpendingLimit)
    (hlim : s.limits user = some limit) (hact : limit.is_active = true)
    (s' : ContractState)
    (hrun : enforce_spending_limit s user now amount = (s', Except.ok ())) :
    ∃ limit', s'.limits user = some limit' ∧
      limit'.current_spending = s'.monthly user (now / SECONDS_PER_MONTH) ∧
      limit'.updated_at = now / SECONDS_PER_MONTH := by
  by_cases hneg : amount ≤ 0
  · exfalso
    simp [enforce_spending_limit, hneg] at hrun
  · cases hd : checked_add_i128 (s.daily user (now / SECONDS_PER_DAY))
        amount with
    | none =>
      exfalso
      simp [enforce_spending_limit, hneg, hlim, hact, hd] at hrun
    | some nd =>
      cases hm : checked_add_i128 (s.monthly user (now / SECONDS_PER_MONTH))
          amount with
      | none =>
        exfalso
        simp [enforce_spending_limit, hneg, hlim, hact, hd, hm] at hrun
      | some nm =>
        by_cases hdo : derive_daily_limit limit.monthly_limit < nd
        · exfalso
          simp [enforce_spending_limit, hneg, hlim, hact, hd, hm,
            hdo] at hrun
        · by_cases hmo : limit.monthly_limit < nm
          · exfalso
            simp [enforce_spending_limit, hneg, hlim, hact, hd, hm, hdo,
              hmo] at hrun
          · simp [enforce_spending_limit, hneg, hlim, hact, hd, hm, hdo,
              hmo, Prod.ext_iff] at hrun
            subst hrun
            refine ⟨{ limit with
                current_spending := nm
                updated_at := now / SECONDS_PER_MONTH }, ?_, ?_, rfl⟩
            · simp [ContractState.setLimit, hact]
            · simp [ContractState.setLimit, ContractState.setMonthly]

/-- Witness for the amended C5: after the spend in the C5 trace, user
1's stored limit mirrors the monthly counter for month 0. -/
theorem c5_enforce_syncs_current_spending_witness :
    ∃ limit', c5_s3.limits 1 = some limit' ∧
      limit'.current_spending = c5_s3.monthly 1 (0 / SECONDS_PER_MONTH) ∧
      limit'.updated_at = 0 / SECONDS_PER_MONTH :=
  c5_enforce_syncs_current_spending c5_s2 1 0 5 (mk_limit c5_req 5) rfl
    rfl c5_s3 rfl

/-! ## C9: uninitialized calls abort, but with a generic panic -/

/-- Counterexample to C9.  On the uninitialized state, a batch call, a
`set_admin` call and a `get_admin` call all abort with the untagged
panic carried by `.expect("Contract not initialized")`, which is not
the tagged `NotInitialized` error code (code 1 is declared in `lib.rs`
but never raised); the state is unchanged. -/
theorem c9_counterexample :
    initialState.admin = none ∧
    batch_update_spending_limits initialState 0 0 [⟨1, 300, "food"⟩] =
      (initialState,
        Except.error (AbortReason.genericPanic "Contract not initialized")) ∧
    set_admin initialState 0 1 =
      (initialState,
        Except.error (AbortReason.genericPanic "Contract not initialized")) ∧
    get_admin initialState =
      Except.error (AbortReason.genericPanic "Contract not initialized") ∧
    AbortReason.genericPanic "Contract not initialized" ≠
      AbortReason.tagged SpendingLimitError.NotInitialized :=
  ⟨rfl, rfl, rfl, rfl, by decide⟩

/-- C9 as amended: when no admin is stored, every
`batch_update_spending_limits`, `set_admin` or `get_admin` call aborts
with the state unchanged, but it surfaces as the generic
"Contract not initialized" panic from `.expect`, not as the tagged
`NotInitialized` error code, which no code path ever raises. -/
theorem c9_uninitialized_aborts_generic (s : ContractState)
    (hadmin : s.admin = none) (caller seq : Nat)
    (requests : List SpendingLimitRequest) (c n : Nat) :
    batch_update_spending_limits s caller seq requests =
      (s,
        Except.error (AbortReason.genericPanic "Contract not initialized")) ∧
    set_admin s c n =
      (s,
        Except.error (AbortReason.genericPanic "Contract not initialized")) ∧
    get_admin s =
      Except.error (AbortReason.genericPanic "Contract not initialized") ∧
    ∀ e : SpendingLimitError,
      AbortReason.genericPanic "Contract not initialized" ≠
        AbortReason.tagged e := by
  refine ⟨?_, ?_, ?_, ?_⟩
  · simp [batch_update_spending_limits, hadmin]
  · simp [set_admin, hadmin]
  · simp [get_admin, hadmin]
  · intro e h
    cases h

/-- Witness for the amended C9 on the pristine state. -/
theorem c9_uninitialized_aborts_generic_witness :
    batch_update_spending_limits initialState 2 3 [⟨1, 300, "food"⟩] =
      (initialState,
        Except.error (AbortReason.genericPanic "Contract not initialized")) ∧
    set_admin initialState 2 4 =
      (initialState,
        Except.error (AbortReason.genericPanic "Contract not initialized")) ∧
    get_admin initialState =
      Except.error (AbortReason.genericPanic "Contract not initialized") ∧
    ∀ e : SpendingLimitError,
      AbortReason.genericPanic "Contract not initialized" ≠
        AbortReason.tagged e :=
  c9_uninitialized_aborts_generic initialState rfl 2 3 [⟨1, 300, "food"⟩] 2 4
